import Mathlib

/-!
Shallow embedding of the preview-token codec, the Plaid proxy routes and the
configuration-phase state machine of the vibebackyard repository, together
with proofs of the specification claims about them.

JavaScript strings are modelled as lists of natural-number code units
(`Str`).  The platform primitives used by the source (`btoa`, `atob`,
`String.prototype.split`, `parseInt`, `Number.prototype.toString`) are
modelled concretely below.  HMAC-SHA256 is kept abstract: every definition
is parametrised by a function `hmac : Str -> Str -> Str` standing for
HMAC-SHA256 over the UTF-8 encodings, exactly as both the issuing and the
verifying side of the source apply it.
-/

namespace Vibe

/-- A JavaScript string: its list of code units. -/
abbrev Str := List Nat

/-- Code units of a Lean string literal, used to write concrete values. -/
def strBytes (s : String) : Str :=
  s.data.map Char.toNat

/-- Model of the JavaScript `string.split(delim)` for a one-character
delimiter, here represented by the code unit `d`. -/
def splitOnByte (d : Nat) : Str → List Str
  | [] => [[]]
  | c :: rest =>
    let r := splitOnByte d rest
    if c = d then [] :: r
    else
      match r with
      | [] => [[c]]
      | h :: t => (c :: h) :: t

/-- Fuelled digit accumulator behind `toDecimal`; peels decimal digits of
`n` onto `acc`, most significant first in the result. -/
def toDecimalGo : Nat → Nat → Str → Str
  | 0, _, acc => acc
  | fuel + 1, n, acc =>
    if n = 0 then acc else toDecimalGo fuel (n / 10) ((n % 10 + 48) :: acc)

/-- Model of JavaScript `Number.prototype.toString()` for a non-negative
integer: its decimal digit characters. -/
def toDecimal (n : Nat) : Str :=
  if n = 0 then [48] else toDecimalGo n n []

/-- Reads a maximal prefix of decimal digit characters, accumulating their
value; stops at the first non-digit, as `parseInt` does. -/
def parseDigits : Str → Nat → Nat
  | [], acc => acc
  | c :: rest, acc =>
    if 48 ≤ c ∧ c ≤ 57 then parseDigits rest (acc * 10 + (c - 48)) else acc

/-- The whitespace characters `parseInt` skips before the number. -/
def isJsSpace (c : Nat) : Bool :=
  c = 32 || c = 9 || c = 10 || c = 11 || c = 12 || c = 13 || c = 160 || c = 65279

/-- Digit-sequence part of `parseIntTen`: fails unless the first character
is a decimal digit, then reads the maximal digit prefix. -/
def parseNonNeg (s : Str) : Option Int :=
  match s with
  | [] => none
  | c :: _ => if 48 ≤ c ∧ c ≤ 57 then some (parseDigits s 0 : Int) else none

/-- Model of JavaScript `parseInt(s, 10)`: skip whitespace, optional sign,
then a maximal digit prefix; `none` models `NaN`. -/
def parseIntTen (s : Str) : Option Int :=
  match s.dropWhile isJsSpace with
  | 43 :: rest => parseNonNeg rest
  | 45 :: rest =>
    match parseNonNeg rest with
    | some n => some (-n)
    | none => none
  | rest => parseNonNeg rest

/-- The standard base64 alphabet as used by `btoa`. -/
def sextetToChar (s : Nat) : Nat :=
  if s < 26 then 65 + s
  else if s < 52 then 97 + (s - 26)
  else if s < 62 then 48 + (s - 52)
  else if s = 62 then 43
  else 47

/-- Inverse of the base64 alphabet; `none` on characters outside it. -/
def charToSextet (c : Nat) : Option Nat :=
  if 65 ≤ c ∧ c ≤ 90 then some (c - 65)
  else if 97 ≤ c ∧ c ≤ 122 then some (c - 97 + 26)
  else if 48 ≤ c ∧ c ≤ 57 then some (c - 48 + 52)
  else if c = 43 then some 62
  else if c = 47 then some 63
  else none

/-- Base64 encoding of a byte list, with `=` (61) padding, as `btoa`
produces on a string of code units below 256. -/
def btoaRaw : List Nat → Str
  | [] => []
  | [b1] => [sextetToChar (b1 / 4), sextetToChar (b1 % 4 * 16), 61, 61]
  | [b1, b2] =>
    [sextetToChar (b1 / 4), sextetToChar (b1 % 4 * 16 + b2 / 16),
     sextetToChar (b2 % 16 * 4), 61]
  | b1 :: b2 :: b3 :: rest =>
    sextetToChar (b1 / 4) :: sextetToChar (b1 % 4 * 16 + b2 / 16) ::
    sextetToChar (b2 % 16 * 4 + b3 / 64) :: sextetToChar (b3 % 64) ::
    btoaRaw rest

/-- Model of JavaScript `btoa`: fails (throws) when some code unit is not a
byte, otherwise base64-encodes the bytes. -/
def btoa (s : Str) : Option Str :=
  if ∀ c ∈ s, c < 256 then some (btoaRaw s) else none

/-- Model of JavaScript `atob`: base64 decoding, accepting canonical padded
and unpadded input; `none` models the thrown `InvalidCharacterError`. -/
def atobRaw : Str → Option (List Nat)
  | [] => some []
  | [_] => none
  | [c1, c2] => do
    let s1 ← charToSextet c1
    let s2 ← charToSextet c2
    pure [s1 * 4 + s2 / 16]
  | [c1, c2, c3] => do
    let s1 ← charToSextet c1
    let s2 ← charToSextet c2
    let s3 ← charToSextet c3
    pure [s1 * 4 + s2 / 16, s2 % 16 * 16 + s3 / 4]
  | c1 :: c2 :: c3 :: c4 :: rest =>
    if c3 = 61 then
      if c4 = 61 ∧ rest = [] then do
        let s1 ← charToSextet c1
        let s2 ← charToSextet c2
        pure [s1 * 4 + s2 / 16]
      else none
    else if c4 = 61 then
      if rest = [] then do
        let s1 ← charToSextet c1
        let s2 ← charToSextet c2
        let s3 ← charToSextet c3
        pure [s1 * 4 + s2 / 16, s2 % 16 * 16 + s3 / 4]
      else none
    else do
      let s1 ← charToSextet c1
      let s2 ← charToSextet c2
      let s3 ← charToSextet c3
      let s4 ← charToSextet c4
      let restBytes ← atobRaw rest
      pure ((s1 * 4 + s2 / 16) :: (s2 % 16 * 16 + s3 / 4) ::
            (s3 % 4 * 64 + s4) :: restBytes)

/-!
## Token codec (worker/api/routes/plaidProxyRoutes: generatePreviewToken /
validatePreviewToken)
-/

/-- The environment bindings the proxy file reads.  A JavaScript value that
is `undefined` or the empty string is modelled by `[]`, matching the
falsiness checks `if (!secret)` and `if (!clientId || !secret)` in the
source.  `PLAID_ENV` only selects one of three base URLs and is omitted. -/
structure Env where
  JWT_SECRET : Str
  PLAID_CLIENT_ID : Str
  PLAID_SECRET : Str

/-- `const maxAge = 24 * 60 * 60 * 1000` from validatePreviewToken. -/
def maxAgeMs : Int := 24 * 60 * 60 * 1000

/-- `btoa(String.fromCharCode(...new Uint8Array(sig)))`: the `Uint8Array`
view makes every element a byte (the abstract MAC already returns bytes,
so the reduction is the identity there), after which `btoa` cannot fail. -/
def btoaSig (sig : Str) : Str :=
  btoaRaw (sig.map (fun b => b % 256))

/-- `generatePreviewToken(env, agentId)` with the call to `Date.now()`
made explicit as `now`.  `none` models a thrown error: `btoa` on a
non-Latin-1 `agentId`, or the `JWT_SECRET not configured` throw.  The
token is `btoa(agentId) + "." + timestamp + "." + signatureBase64` where
the signature is HMAC-SHA256 of `agentId + "." + timestamp` (46 = "."). -/
def generatePreviewToken (hmac : Str → Str → Str) (env : Env)
    (agentId : Str) (now : Nat) : Option Str :=
  let timestamp := toDecimal now
  match btoa agentId with
  | none => none
  | some encodedAgentId =>
    if env.JWT_SECRET = [] then none
    else
      let signature := btoaSig (hmac env.JWT_SECRET (agentId ++ 46 :: timestamp))
      some (encodedAgentId ++ 46 :: timestamp ++ 46 :: signature)

/-- Body of `validatePreviewToken` inside its `try` block.  `Except.error`
models a thrown exception (only `atob` can throw here; the WebCrypto calls
are assumed not to, as the secret is non-empty at that point).  The
checks appear in source order: part count, `atob`, timestamp parse,
`now - tokenTime > maxAge`, missing secret, signature comparison. -/
def validateBody (hmac : Str → Str → Str) (env : Env) (token : Str)
    (now : Nat) : Except Unit (Option Str) :=
  match splitOnByte 46 token with
  | [encodedAgentId, timestamp, signature] =>
    match atobRaw encodedAgentId with
    | none => Except.error ()
    | some agentId =>
      match parseIntTen timestamp with
      | none => Except.ok none
      | some tokenTime =>
        if (now : Int) - tokenTime > maxAgeMs then Except.ok none
        else if env.JWT_SECRET = [] then Except.ok none
        else
          let expected := btoaSig (hmac env.JWT_SECRET (agentId ++ 46 :: timestamp))
          if signature = expected then Except.ok (some agentId)
          else Except.ok none
  | _ => Except.ok none

/-- `validatePreviewToken(env, token)` with `Date.now()` explicit: the
falsy-token early return, then the `try` body with every thrown error
caught and turned into `null` (`none`). -/
def validatePreviewToken (hmac : Str → Str → Str) (env : Env) (token : Str)
    (now : Nat) : Option Str :=
  if token = [] then none
  else
    match validateBody hmac env token now with
    | Except.ok r => r
    | Except.error _ => none

/-- The token `generatePreviewToken` produces when it does not throw,
written out: used to state facts about issued tokens. -/
def genToken (hmac : Str → Str → Str) (env : Env) (agentId : Str)
    (t : Nat) : Str :=
  btoaRaw agentId ++ 46 :: (toDecimal t ++
    46 :: btoaSig (hmac env.JWT_SECRET (agentId ++ 46 :: toDecimal t)))

/-!
## Plaid proxy routes (setupPlaidProxyRoutes)

The HTTP and Durable-Object effects are modelled by an oracle giving the
outcome of each awaited call, and each handler returns its response
together with the list of outbound provider calls and token stores it
performed, in execution order.
-/

/-- Observable effects of a handler run: an outbound Plaid API request
(`fetch` inside `plaidRequest`) or `agentStub.storePlaidAccessToken`. -/
inductive Event where
  | plaidFetch (endpoint : Str)
  | storeToken
deriving DecidableEq, Repr

/-- Outcome of the `fetch` to Plaid inside `plaidRequest`: either
`response.ok` (payload fields abstracted away: they only flow into the
store call and the response body), or a non-ok status whose error JSON
carries an optional `error_message`. -/
inductive FetchOutcome where
  | ok
  | httpError (status : Nat) (errorMessage : Option Str)
deriving DecidableEq, Repr

/-- Results of the awaited external calls a handler can make.  An
`Except.error m` models a rejection whose `Error.message` is `m`. -/
structure Oracle where
  getAgentStub : Except Str Unit
  getPlaidAccessToken : Except Str (Option Str)
  storePlaidAccessToken : Except Str Unit
  fetchPlaid : Str → FetchOutcome

/-- The JSON response of a handler, reduced to the claim-relevant fields:
HTTP status, the `success` flag (absent on the 401/403 bodies), the
`needsConnection` flag (false when absent), the `error` string, and the
`connected` flag of the status route. -/
structure HttpResponse where
  status : Nat
  success : Option Bool
  needsConnection : Bool
  error : Option Str
  connected : Option Bool
deriving DecidableEq, Repr

/-- `{ error: 'Missing preview token' }, 401`. -/
def resp401 : HttpResponse :=
  ⟨401, none, false, some (strBytes "Missing preview token"), none⟩

/-- `{ error: 'Invalid preview token' }, 403`. -/
def resp403 : HttpResponse :=
  ⟨403, none, false, some (strBytes "Invalid preview token"), none⟩

/-- `{ success: false, error: msg }, 500` from a route catch block. -/
def resp500 (msg : Str) : HttpResponse :=
  ⟨500, some false, false, some msg, none⟩

/-- `plaidRequest(env, endpoint, body)`: throws when the platform Plaid
credentials are missing (before any network call), otherwise performs the
fetch; a non-ok response throws `error_message ||` the generic
`Plaid API error: status` message. -/
def plaidRequestM (env : Env) (o : Oracle) (endpoint : Str) :
    Except Str Unit × List Event :=
  if env.PLAID_CLIENT_ID = [] ∨ env.PLAID_SECRET = [] then
    (Except.error (strBytes "Plaid credentials not configured"), [])
  else
    match o.fetchPlaid endpoint with
    | FetchOutcome.ok => (Except.ok (), [Event.plaidFetch endpoint])
    | FetchOutcome.httpError st msg =>
      let m := msg.getD []
      let m := if m = [] then strBytes "Plaid API error: " ++ toDecimal st else m
      (Except.error m, [Event.plaidFetch endpoint])

/-- Endpoint string of the link-token route. -/
def epLinkTokenCreate : Str := strBytes "/link/token/create"

/-- Endpoint string of the exchange route. -/
def epExchange : Str := strBytes "/item/public_token/exchange"

/-- Endpoint string of the transactions route. -/
def epTransactionsSync : Str := strBytes "/transactions/sync"

/-- Endpoint string of the accounts route. -/
def epAccountsGet : Str := strBytes "/accounts/get"

/-- POST /api/proxy/plaid/link-token.  `header` is the value of
`c.req.header('X-Preview-Token')` (`none` when the header is absent); the
source guard `if (!previewToken)` also fires on the empty string. -/
def linkTokenRoute (hmac : Str → Str → Str) (env : Env) (o : Oracle)
    (now : Nat) (header : Option Str) : HttpResponse × List Event :=
  match header with
  | none => (resp401, [])
  | some previewToken =>
    if previewToken = [] then (resp401, [])
    else
      match validatePreviewToken hmac env previewToken now with
      | none => (resp403, [])
      | some agentId =>
        if agentId = [] then (resp403, [])
        else
          match plaidRequestM env o epLinkTokenCreate with
          | (Except.ok _, evs) => (⟨200, some true, false, none, none⟩, evs)
          | (Except.error m, evs) => (resp500 m, evs)

/-- POST /api/proxy/plaid/exchange-token.  `body` models the parsed JSON:
`none` when `c.req.json()` throws, otherwise the `public_token` field
(`none` when absent; the guard `if (!body.public_token)` also fires on
the empty string).  On a successful exchange the access token is stored
in the Agent DO before the success response is produced. -/
def exchangeTokenRoute (hmac : Str → Str → Str) (env : Env) (o : Oracle)
    (now : Nat) (header : Option Str) (body : Option (Option Str)) :
    HttpResponse × List Event :=
  match header with
  | none => (resp401, [])
  | some previewToken =>
    if previewToken = [] then (resp401, [])
    else
      match validatePreviewToken hmac env previewToken now with
      | none => (resp403, [])
      | some agentId =>
        if agentId = [] then (resp403, [])
        else
          match body with
          | none => (⟨400, none, false, some (strBytes "Invalid JSON body"), none⟩, [])
          | some publicToken =>
            match publicToken with
            | none => (⟨400, none, false, some (strBytes "Missing public_token"), none⟩, [])
            | some p =>
              if p = [] then
                (⟨400, none, false, some (strBytes "Missing public_token"), none⟩, [])
              else
                match plaidRequestM env o epExchange with
                | (Except.error m, evs) => (resp500 m, evs)
                | (Except.ok _, evs) =>
                  match o.getAgentStub with
                  | Except.error m => (resp500 m, evs)
                  | Except.ok _ =>
                    match o.storePlaidAccessToken with
                    | Except.error m => (resp500 m, evs ++ [Event.storeToken])
                    | Except.ok _ =>
                      (⟨200, some true, false, none, none⟩, evs ++ [Event.storeToken])

/-- GET /api/proxy/plaid/transactions: resolves the stored per-tenant
access token first; the guard `if (!accessToken)` fires on `null` and on
an empty-string credential alike, yielding the structured
needs-connection 400 before any provider call. -/
def transactionsRoute (hmac : Str → Str → Str) (env : Env) (o : Oracle)
    (now : Nat) (header : Option Str) : HttpResponse × List Event :=
  match header with
  | none => (resp401, [])
  | some previewToken =>
    if previewToken = [] then (resp401, [])
    else
      match validatePreviewToken hmac env previewToken now with
      | none => (resp403, [])
      | some agentId =>
        if agentId = [] then (resp403, [])
        else
          match o.getAgentStub with
          | Except.error m => (resp500 m, [])
          | Except.ok _ =>
            match o.getPlaidAccessToken with
            | Except.error m => (resp500 m, [])
            | Except.ok none =>
              (⟨400, some false, true, some (strBytes "No Plaid account connected"), none⟩, [])
            | Except.ok (some accessToken) =>
              if accessToken = [] then
                (⟨400, some false, true, some (strBytes "No Plaid account connected"), none⟩, [])
              else
                match plaidRequestM env o epTransactionsSync with
                | (Except.ok _, evs) => (⟨200, some true, false, none, none⟩, evs)
                | (Except.error m, evs) => (resp500 m, evs)

/-- GET /api/proxy/plaid/accounts: same shape as the transactions route,
including the falsy credential guard, with the /accounts/get endpoint. -/
def accountsRoute (hmac : Str → Str → Str) (env : Env) (o : Oracle)
    (now : Nat) (header : Option Str) : HttpResponse × List Event :=
  match header with
  | none => (resp401, [])
  | some previewToken =>
    if previewToken = [] then (resp401, [])
    else
      match validatePreviewToken hmac env previewToken now with
      | none => (resp403, [])
      | some agentId =>
        if agentId = [] then (resp403, [])
        else
          match o.getAgentStub with
          | Except.error m => (resp500 m, [])
          | Except.ok _ =>
            match o.getPlaidAccessToken with
            | Except.error m => (resp500 m, [])
            | Except.ok none =>
              (⟨400, some false, true, some (strBytes "No Plaid account connected"), none⟩, [])
            | Except.ok (some accessToken) =>
              if accessToken = [] then
                (⟨400, some false, true, some (strBytes "No Plaid account connected"), none⟩, [])
              else
                match plaidRequestM env o epAccountsGet with
                | (Except.ok _, evs) => (⟨200, some true, false, none, none⟩, evs)
                | (Except.error m, evs) => (resp500 m, evs)

/-- GET /api/proxy/plaid/status: reports `connected: !!accessToken`,
false for a missing and for an empty-string stored credential alike. -/
def statusRoute (hmac : Str → Str → Str) (env : Env) (o : Oracle)
    (now : Nat) (header : Option Str) : HttpResponse × List Event :=
  match header with
  | none => (resp401, [])
  | some previewToken =>
    if previewToken = [] then (resp401, [])
    else
      match validatePreviewToken hmac env previewToken now with
      | none => (resp403, [])
      | some agentId =>
        if agentId = [] then (resp403, [])
        else
          match o.getAgentStub with
          | Except.error m => (resp500 m, [])
          | Except.ok _ =>
            match o.getPlaidAccessToken with
            | Except.error m => (resp500 m, [])
            | Except.ok tok =>
              (⟨200, some true, false, none, some (!(tok.getD []).isEmpty)⟩, [])

/-- The five registered proxy endpoints. -/
inductive Route where
  | linkToken
  | exchangeToken
  | transactions
  | accounts
  | status
deriving DecidableEq, Repr

/-- Dispatch to the handler registered for a route; `body` is only read by
the exchange route. -/
def handleRoute (hmac : Str → Str → Str) (env : Env) (o : Oracle) (now : Nat)
    (r : Route) (header : Option Str) (body : Option (Option Str)) :
    HttpResponse × List Event :=
  match r with
  | Route.linkToken => linkTokenRoute hmac env o now header
  | Route.exchangeToken => exchangeTokenRoute hmac env o now header body
  | Route.transactions => transactionsRoute hmac env o now header
  | Route.accounts => accountsRoute hmac env o now header
  | Route.status => statusRoute hmac env o now header

/-!
## Configuration phase (docs/agency-architecture-plan.md,
executeConfigurationPhase)
-/

/-- The generation states of the planned state machine. -/
inductive CurrentDevState where
  | IDLE
  | PHASE_CONFIGURING
  | PHASE_GENERATING
  | PHASE_IMPLEMENTING
  | REVIEWING
  | FINALIZING
deriving DecidableEq, Repr

/-- The `pendingConfiguration` record stored by the gate. -/
structure PendingConfiguration where
  requiredServices : List Str
  configuredServices : List Str
  configCardId : Str
deriving DecidableEq, Repr

/-- The slice of `PhasicState` the configuration phase touches. -/
structure PhasicState where
  pendingConfiguration : Option PendingConfiguration
deriving DecidableEq, Repr

/-- A broadcast `CONFIGURATION_CARD` message, reduced to its card id and
the ids of the unconfigured services it lists (title, display names, auth
types and the two static actions carry no per-run information). -/
structure ConfigCardEvent where
  cardId : Str
  services : List Str
deriving DecidableEq, Repr

/-- `executeConfigurationPhase` from the architecture plan.
`detected` stands for `detectRequiredServices(this.state.blueprint)`,
`hasSecret` for `secretsClient.has({provider})`, and `now` for the
`Date.now()` used to mint `config-` card ids.  Returns the next dev
state, the updated state, and the broadcast events. -/
def executeConfigurationPhase (detected : List Str) (hasSecret : Str → Bool)
    (now : Nat) (st : PhasicState) :
    CurrentDevState × PhasicState × List ConfigCardEvent :=
  let unconfiguredServices := detected.filter (fun s => ! hasSecret s)
  if unconfiguredServices = [] then (CurrentDevState.PHASE_GENERATING, st, [])
  else
    let configCardId := strBytes "config-" ++ toDecimal now
    (CurrentDevState.IDLE,
     { pendingConfiguration :=
         some ⟨unconfiguredServices, [], configCardId⟩ },
     [⟨configCardId, unconfiguredServices⟩])

/-!
## Concrete demonstration values used by witnesses and counterexamples
-/

/-- A concrete stand-in for the abstract MAC, used only to instantiate
universally quantified theorems at a computable point. -/
def hmacDemo : Str → Str → Str :=
  fun s d => [(s.length * 7 + d.length * 13) % 256, 5]

/-- An environment with all bindings configured. -/
def envFull : Env :=
  ⟨strBytes "jwt-secret", strBytes "client-id", strBytes "plaid-secret"⟩

/-- A demonstration tenant id. -/
def agentIdDemo : Str := strBytes "agent1"

/-- The token issued for `agentIdDemo` at time 0 under `envFull`. -/
def tokDemo : Str :=
  (generatePreviewToken hmacDemo envFull agentIdDemo 0).getD []

/-- An oracle where every external call succeeds and a tenant credential
is stored. -/
def oracleHappy : Oracle :=
  ⟨Except.ok (), Except.ok (some (strBytes "access-sandbox-1")),
   Except.ok (), fun _ => FetchOutcome.ok⟩

/-- An oracle for a tenant with no stored Plaid credential. -/
def oracleNoCred : Oracle :=
  ⟨Except.ok (), Except.ok none, Except.ok (), fun _ => FetchOutcome.ok⟩

/-- An oracle where Plaid answers every call with its own 400 error, as it
does for a bad or expired access token. -/
def oracle400 : Oracle :=
  ⟨Except.ok (), Except.ok (some (strBytes "access-sandbox-1")), Except.ok (),
   fun _ => FetchOutcome.httpError 400 (some (strBytes "the access token is invalid"))⟩

/-!
## Supporting lemmas: base64, decimal rendering, splitting
-/

theorem charToSextet_sextetToChar : ∀ s < 64, charToSextet (sextetToChar s) = some s := by
  decide

theorem sextetToChar_ne_dot (s : Nat) : sextetToChar s ≠ 46 := by
  unfold sextetToChar
  split_ifs <;> omega

theorem sextetToChar_ne_pad (s : Nat) : sextetToChar s ≠ 61 := by
  unfold sextetToChar
  split_ifs <;> omega

theorem btoaRaw_no_dot : ∀ bs : List Nat, 46 ∉ btoaRaw bs
  | [] => by simp [btoaRaw]
  | [b1] => by
    intro h
    simp only [btoaRaw, List.mem_cons, List.not_mem_nil, or_false] at h
    rcases h with h | h | h | h <;>
      first
      | exact sextetToChar_ne_dot _ h.symm
      | omega
  | [b1, b2] => by
    intro h
    simp only [btoaRaw, List.mem_cons, List.not_mem_nil, or_false] at h
    rcases h with h | h | h | h <;>
      first
      | exact sextetToChar_ne_dot _ h.symm
      | omega
  | b1 :: b2 :: b3 :: rest => by
    intro h
    simp only [btoaRaw, List.mem_cons] at h
    rcases h with h | h | h | h | h <;>
      first
      | exact sextetToChar_ne_dot _ h.symm
      | exact btoaRaw_no_dot rest h

theorem atob_btoa : ∀ bs : List Nat, (∀ b ∈ bs, b < 256) →
    atobRaw (btoaRaw bs) = some bs
  | [], _ => rfl
  | [b1], h => by
    have hb1 : b1 < 256 := h b1 (by simp)
    have h1 := charToSextet_sextetToChar (b1 / 4) (by omega)
    have h2 := charToSextet_sextetToChar (b1 % 4 * 16) (by omega)
    simp only [btoaRaw, atobRaw, h1, h2, Option.bind_eq_bind, Option.some_bind,
      if_pos rfl, and_self, if_true]
    simp only [Option.pure_def, Option.some.injEq, List.cons.injEq, and_true]
    omega
  | [b1, b2], h => by
    have hb1 : b1 < 256 := h b1 (by simp)
    have hb2 : b2 < 256 := h b2 (by simp)
    have h1 := charToSextet_sextetToChar (b1 / 4) (by omega)
    have h2 := charToSextet_sextetToChar (b1 % 4 * 16 + b2 / 16) (by omega)
    have h3 := charToSextet_sextetToChar (b2 % 16 * 4) (by omega)
    have n3 := sextetToChar_ne_pad (b2 % 16 * 4)
    simp [btoaRaw, atobRaw, if_neg n3, h1, h2, h3]
    omega
  | b1 :: b2 :: b3 :: rest, h => by
    have hb1 : b1 < 256 := h b1 (by simp)
    have hb2 : b2 < 256 := h b2 (by simp)
    have hb3 : b3 < 256 := h b3 (by simp)
    have ih := atob_btoa rest (fun b hb => h b (by simp [hb]))
    have h1 := charToSextet_sextetToChar (b1 / 4) (by omega)
    have h2 := charToSextet_sextetToChar (b1 % 4 * 16 + b2 / 16) (by omega)
    have h3 := charToSextet_sextetToChar (b2 % 16 * 4 + b3 / 64) (by omega)
    have h4 := charToSextet_sextetToChar (b3 % 64) (by omega)
    have n3 := sextetToChar_ne_pad (b2 % 16 * 4 + b3 / 64)
    have n4 := sextetToChar_ne_pad (b3 % 64)
    simp [btoaRaw, atobRaw, if_neg n3, if_neg n4, h1, h2, h3, h4, ih]
    omega

theorem splitOnByte_not_mem (d : Nat) (xs : Str) (h : d ∉ xs) :
    splitOnByte d xs = [xs] := by
  induction xs with
  | nil => rfl
  | cons c rest ih =>
    have hc : ¬ c = d := fun e => h (by simp [e])
    have hr : d ∉ rest := fun m => h (by simp [m])
    simp [splitOnByte, hc, ih hr]

theorem splitOnByte_append (d : Nat) (xs ys : Str) (h : d ∉ xs) :
    splitOnByte d (xs ++ d :: ys) = xs :: splitOnByte d ys := by
  induction xs with
  | nil => simp [splitOnByte]
  | cons c rest ih =>
    have hc : ¬ c = d := fun e => h (by simp [e])
    have hr : d ∉ rest := fun m => h (by simp [m])
    simp [splitOnByte, hc, ih hr]

theorem splitOnByte_three (a b c : Str) (ha : 46 ∉ a) (hb : 46 ∉ b)
    (hc : 46 ∉ c) : splitOnByte 46 (a ++ 46 :: (b ++ 46 :: c)) = [a, b, c] := by
  rw [splitOnByte_append 46 a _ ha, splitOnByte_append 46 b c hb,
    splitOnByte_not_mem 46 c hc]

theorem toDecimalGo_append : ∀ (fuel n : Nat) (acc : Str),
    toDecimalGo fuel n acc = toDecimalGo fuel n [] ++ acc := by
  intro fuel
  induction fuel with
  | zero => intro n acc; rfl
  | succ f ih =>
    intro n acc
    by_cases hn : n = 0
    · simp [toDecimalGo, hn]
    · simp only [toDecimalGo, if_neg hn]
      rw [ih (n / 10) ((n % 10 + 48) :: acc), ih (n / 10) [n % 10 + 48]]
      simp

theorem toDecimalGo_digits : ∀ (fuel n : Nat), ∀ c ∈ toDecimalGo fuel n [],
    48 ≤ c ∧ c ≤ 57 := by
  intro fuel
  induction fuel with
  | zero => intro n c hc; simp [toDecimalGo] at hc
  | succ f ih =>
    intro n c hc
    by_cases hn : n = 0
    · simp [toDecimalGo, hn] at hc
    · simp only [toDecimalGo, if_neg hn] at hc
      rw [toDecimalGo_append] at hc
      rcases List.mem_append.mp hc with hm | hm
      · exact ih (n / 10) c hm
      · simp at hm
        omega

theorem toDecimal_digits (n : Nat) : ∀ c ∈ toDecimal n, 48 ≤ c ∧ c ≤ 57 := by
  intro c hc
  by_cases hn : n = 0
  · simp [toDecimal, hn] at hc
    omega
  · simp only [toDecimal, if_neg hn] at hc
    exact toDecimalGo_digits n n c hc

theorem toDecimal_no_dot (n : Nat) : 46 ∉ toDecimal n := by
  intro h
  have := toDecimal_digits n 46 h
  omega

theorem toDecimal_ne_nil (n : Nat) : toDecimal n ≠ [] := by
  by_cases hn : n = 0
  · simp [toDecimal, hn]
  · simp only [toDecimal, if_neg hn]
    cases hf : toDecimalGo n n [] with
    | nil =>
      exfalso
      cases n with
      | zero => exact hn rfl
      | succ m =>
        rw [show toDecimalGo (m + 1) (m + 1) [] =
          toDecimalGo m ((m + 1) / 10) [(m + 1) % 10 + 48] from by
            simp [toDecimalGo]] at hf
        rw [toDecimalGo_append] at hf
        simp at hf
    | cons c cs => simp

theorem foldl_toDecimalGo : ∀ (fuel n : Nat), n ≤ fuel →
    List.foldl (fun a c => a * 10 + (c - 48)) 0 (toDecimalGo fuel n []) = n := by
  intro fuel
  induction fuel with
  | zero =>
    intro n hn
    interval_cases n
    rfl
  | succ f ih =>
    intro n hn
    by_cases h0 : n = 0
    · simp [toDecimalGo, h0]
    · have hdiv : n / 10 < n := Nat.div_lt_self (Nat.pos_of_ne_zero h0) (by norm_num)
      simp only [toDecimalGo, if_neg h0]
      rw [toDecimalGo_append, List.foldl_append, ih (n / 10) (by omega)]
      simp only [List.foldl_cons, List.foldl_nil]
      omega

theorem parseDigits_eq_foldl : ∀ (xs : Str) (acc : Nat),
    (∀ c ∈ xs, 48 ≤ c ∧ c ≤ 57) →
    parseDigits xs acc = List.foldl (fun a c => a * 10 + (c - 48)) acc xs := by
  intro xs
  induction xs with
  | nil => intro acc _; rfl
  | cons c rest ih =>
    intro acc h
    have hc := h c (by simp)
    simp only [parseDigits, if_pos hc, List.foldl_cons]
    exact ih _ (fun x hx => h x (by simp [hx]))

theorem isJsSpace_digit {c : Nat} (h : 48 ≤ c ∧ c ≤ 57) : isJsSpace c = false := by
  simp only [isJsSpace, Bool.or_eq_false_iff, decide_eq_false_iff_not]
  omega

theorem parseIntTen_toDecimal (n : Nat) :
    parseIntTen (toDecimal n) = some (n : Int) := by
  obtain ⟨c, cs, hcons⟩ : ∃ c cs, toDecimal n = c :: cs := by
    cases h : toDecimal n with
    | nil => exact absurd h (toDecimal_ne_nil n)
    | cons c cs => exact ⟨c, cs, rfl⟩
  have hc : 48 ≤ c ∧ c ≤ 57 := toDecimal_digits n c (by simp [hcons])
  have hdrop : (toDecimal n).dropWhile isJsSpace = c :: cs := by
    rw [hcons, List.dropWhile_cons, isJsSpace_digit hc]
    simp
  have hval : parseDigits (toDecimal n) 0 = n := by
    rw [parseDigits_eq_foldl _ _ (toDecimal_digits n)]
    by_cases h0 : n = 0
    · simp [toDecimal, h0]
    · simp only [toDecimal, if_neg h0]
      exact foldl_toDecimalGo n n le_rfl
  rw [parseIntTen, hdrop]
  split
  · rename_i rest heq
    rw [show c = 43 from (List.cons.injEq _ _ _ _ ▸ heq).1] at hc
    omega
  · rename_i rest heq
    rw [show c = 45 from (List.cons.injEq _ _ _ _ ▸ heq).1] at hc
    omega
  · rename_i heq1 heq2
    rw [parseNonNeg, if_pos hc, ← hcons, hval]

/-!
## Supporting lemmas: issued tokens under the verifier
-/

theorem generate_eq (hmac : Str → Str → Str) (env : Env) (agentId : Str)
    (t : Nat) (hs : env.JWT_SECRET ≠ []) (hla : ∀ c ∈ agentId, c < 256) :
    generatePreviewToken hmac env agentId t = some (genToken hmac env agentId t) := by
  have hb : btoa agentId = some (btoaRaw agentId) := by
    rw [btoa, if_pos hla]
  simp [generatePreviewToken, hb, hs, genToken]

theorem validate_genToken (hmac : Str → Str → Str) (env : Env)
    (agentId : Str) (t now : Nat) (hs : env.JWT_SECRET ≠ [])
    (hla : ∀ c ∈ agentId, c < 256) :
    validatePreviewToken hmac env (genToken hmac env agentId t) now =
      if (now : Int) - (t : Int) > maxAgeMs then none else some agentId := by
  have hsplit : splitOnByte 46 (genToken hmac env agentId t) =
      [btoaRaw agentId, toDecimal t,
       btoaSig (hmac env.JWT_SECRET (agentId ++ 46 :: toDecimal t))] :=
    splitOnByte_three _ _ _ (btoaRaw_no_dot agentId) (toDecimal_no_dot t)
      (btoaRaw_no_dot _)
  have hne : ¬ genToken hmac env agentId t = [] := by
    simp [genToken]
  have hatob : atobRaw (btoaRaw agentId) = some agentId := atob_btoa agentId hla
  have hparse : parseIntTen (toDecimal t) = some (t : Int) := parseIntTen_toDecimal t
  rw [validatePreviewToken, if_neg hne, validateBody, hsplit]
  simp only [hatob, hparse]
  by_cases hage : (now : Int) - (t : Int) > maxAgeMs
  · simp [hage]
  · simp [hage, hs]

/-!
## Claims
-/

/-- Claim C1: for every tenant id (of Latin-1 code units, the domain of
`btoa`), non-empty signing secret and issuance time `now`, verifying the
token produced by `generatePreviewToken` with the same secret at the same
time succeeds and returns the tenant id. -/
theorem claim_c1_round_trip (hmac : Str → Str → Str) (env : Env)
    (tenantId : Str) (now : Nat) (hs : env.JWT_SECRET ≠ [])
    (hla : ∀ c ∈ tenantId, c < 256) :
    ∃ tok, generatePreviewToken hmac env tenantId now = some tok ∧
      validatePreviewToken hmac env tok now = some tenantId := by
  refine ⟨genToken hmac env tenantId now, generate_eq hmac env tenantId now hs hla, ?_⟩
  have hage : ¬ ((now : Int) - (now : Int) > maxAgeMs) := by
    simp [maxAgeMs]
  rw [validate_genToken hmac env tenantId now now hs hla, if_neg hage]

/-- Witness for C1 at a concrete tenant, secret and time. -/
theorem claim_c1_round_trip_witness :
    envFull.JWT_SECRET ≠ [] ∧ (∀ c ∈ agentIdDemo, c < 256) ∧
    (∃ tok, generatePreviewToken hmacDemo envFull agentIdDemo 5 = some tok ∧
      validatePreviewToken hmacDemo envFull tok 5 = some agentIdDemo) :=
  ⟨by decide, by decide,
   claim_c1_round_trip hmacDemo envFull agentIdDemo 5 (by decide) (by decide)⟩

/-- Claim C2 counterexample: the token issued at time 1 carries the
embedded timestamp 1, strictly greater than the verifier time 0, yet
`validatePreviewToken` accepts it and returns the tenant id instead of
the Invalid outcome: the code has no clock-skew check, since
`now - tokenTime` is negative and hence never exceeds `maxAge`. -/
theorem claim_c2_counterexample :
    validatePreviewToken hmacDemo envFull
      ((generatePreviewToken hmacDemo envFull agentIdDemo 1).getD []) 0 =
      some agentIdDemo := by
  decide

/-- Claim C2 amended: a token whose embedded timestamp is strictly greater
than the verifier time is NOT rejected: verification of a validly issued
future-dated token succeeds, because the only timestamp check is
`now - tokenTime > maxAge`, which a future timestamp trivially passes. -/
theorem claim_c2_amended (hmac : Str → Str → Str) (env : Env)
    (tenantId : Str) (t now : Nat) (hs : env.JWT_SECRET ≠ [])
    (hla : ∀ c ∈ tenantId, c < 256) (hfuture : now < t) :
    ∃ tok, generatePreviewToken hmac env tenantId t = some tok ∧
      validatePreviewToken hmac env tok now = some tenantId := by
  refine ⟨genToken hmac env tenantId t, generate_eq hmac env tenantId t hs hla, ?_⟩
  have hage : ¬ ((now : Int) - (t : Int) > maxAgeMs) := by
    rw [maxAgeMs]
    omega
  rw [validate_genToken hmac env tenantId t now hs hla, if_neg hage]

/-- Witness for the amended C2: issue at time 1, verify at time 0. -/
theorem claim_c2_amended_witness :
    envFull.JWT_SECRET ≠ [] ∧ (0 : Nat) < 1 ∧
    (∃ tok, generatePreviewToken hmacDemo envFull agentIdDemo 1 = some tok ∧
      validatePreviewToken hmacDemo envFull tok 0 = some agentIdDemo) :=
  ⟨by decide, by decide,
   claim_c2_amended hmacDemo envFull agentIdDemo 1 0 (by decide) (by decide) (by decide)⟩

/-- Claim C3: a token issued at `t0` still verifies at
`t0 + 24h - 1ms` and no longer verifies at `t0 + 24h + 1ms`. -/
theorem claim_c3_expiry_boundary (hmac : Str → Str → Str) (env : Env)
    (tenantId : Str) (t0 : Nat) (hs : env.JWT_SECRET ≠ [])
    (hla : ∀ c ∈ tenantId, c < 256) :
    ∃ tok, generatePreviewToken hmac env tenantId t0 = some tok ∧
      validatePreviewToken hmac env tok (t0 + (24 * 60 * 60 * 1000 - 1)) =
        some tenantId ∧
      validatePreviewToken hmac env tok (t0 + (24 * 60 * 60 * 1000 + 1)) =
        none := by
  refine ⟨genToken hmac env tenantId t0,
    generate_eq hmac env tenantId t0 hs hla, ?_, ?_⟩
  · have hage : ¬ (((t0 + (24 * 60 * 60 * 1000 - 1) : Nat) : Int) - (t0 : Int) >
        maxAgeMs) := by
      rw [maxAgeMs]
      push_cast
      omega
    rw [validate_genToken hmac env tenantId t0 _ hs hla, if_neg hage]
  · have hage : ((t0 + (24 * 60 * 60 * 1000 + 1) : Nat) : Int) - (t0 : Int) >
        maxAgeMs := by
      rw [maxAgeMs]
      push_cast
      omega
    rw [validate_genToken hmac env tenantId t0 _ hs hla, if_pos hage]

/-- Witness for C3 at a concrete tenant, secret and issuance time 0. -/
theorem claim_c3_expiry_boundary_witness :
    envFull.JWT_SECRET ≠ [] ∧
    (∃ tok, generatePreviewToken hmacDemo envFull agentIdDemo 0 = some tok ∧
      validatePreviewToken hmacDemo envFull tok (0 + (24 * 60 * 60 * 1000 - 1)) =
        some agentIdDemo ∧
      validatePreviewToken hmacDemo envFull tok (0 + (24 * 60 * 60 * 1000 + 1)) =
        none) :=
  ⟨by decide,
   claim_c3_expiry_boundary hmacDemo envFull agentIdDemo 0 (by decide) (by decide)⟩

/-- Claim C4: verification is a total function into the single Invalid
outcome (`none`) or a tenant id, and each malformed-input class lands on
Invalid: a part count other than 3, an undecodable tenant-id segment
(where `atob` throws, swallowed by the `catch`), and a timestamp segment
that does not parse as an integer. -/
theorem claim_c4_total (hmac : Str → Str → Str) (env : Env) (token : Str)
    (now : Nat) :
    (validatePreviewToken hmac env token now = none ∨
      ∃ tenantId, validatePreviewToken hmac env token now = some tenantId) ∧
    ((splitOnByte 46 token).length ≠ 3 →
      validatePreviewToken hmac env token now = none) ∧
    (∀ a b c, splitOnByte 46 token = [a, b, c] → atobRaw a = none →
      validatePreviewToken hmac env token now = none) ∧
    (∀ a b c tid, splitOnByte 46 token = [a, b, c] → atobRaw a = some tid →
      parseIntTen b = none →
      validatePreviewToken hmac env token now = none) := by
  refine ⟨?_, ?_, ?_, ?_⟩
  · cases h : validatePreviewToken hmac env token now with
    | none => exact Or.inl rfl
    | some v => exact Or.inr ⟨v, rfl⟩
  · intro hlen
    by_cases ht : token = []
    · simp [validatePreviewToken, ht]
    · rcases hsp : splitOnByte 46 token with _ | ⟨a, _ | ⟨b, _ | ⟨c, _ | ⟨d, t⟩⟩⟩⟩ <;>
        simp [validatePreviewToken, validateBody, ht, hsp] <;>
        simp [hsp] at hlen
  · intro a b c hsp hatob
    by_cases ht : token = []
    · simp [validatePreviewToken, ht]
    · simp [validatePreviewToken, validateBody, ht, hsp, hatob]
  · intro a b c tid hsp hatob hparse
    by_cases ht : token = []
    · simp [validatePreviewToken, ht]
    · simp [validatePreviewToken, validateBody, ht, hsp, hatob, hparse]

/-- Witness for C4 on the malformed token "x" (one part). -/
theorem claim_c4_total_witness :
    (splitOnByte 46 (strBytes "x")).length ≠ 3 ∧
    validatePreviewToken hmacDemo envFull (strBytes "x") 0 = none :=
  ⟨by decide, (claim_c4_total hmacDemo envFull (strBytes "x") 0).2.1 (by decide)⟩

/-- Claim C5 counterexample: a request carrying the X-Preview-Token header
with an empty value is a present header whose token fails verification,
yet the handler answers 401 instead of 403, because the guard
`if (!previewToken)` treats the empty string like a missing header. -/
theorem claim_c5_counterexample :
    validatePreviewToken hmacDemo envFull [] 0 = none ∧
    (handleRoute hmacDemo envFull oracleHappy 0 Route.transactions
      (some []) none).1.status = 401 := by
  decide

/-- Claim C5 amended: on every proxy endpoint, an absent or empty-valued
X-Preview-Token header yields 401, and a present non-empty header whose
token fails verification yields 403. -/
theorem claim_c5_amended (hmac : Str → Str → Str) (env : Env) (o : Oracle)
    (now : Nat) (r : Route) (header : Option Str)
    (body : Option (Option Str)) :
    ((header = none ∨ header = some []) →
      (handleRoute hmac env o now r header body).1.status = 401) ∧
    (∀ tok, header = some tok → tok ≠ [] →
      validatePreviewToken hmac env tok now = none →
      (handleRoute hmac env o now r header body).1.status = 403) := by
  constructor
  · rintro (rfl | rfl) <;> cases r <;>
      simp [handleRoute, linkTokenRoute, exchangeTokenRoute, transactionsRoute,
        accountsRoute, statusRoute, resp401]
  · rintro tok rfl hne hv
    cases r <;>
      simp [handleRoute, linkTokenRoute, exchangeTokenRoute, transactionsRoute,
        accountsRoute, statusRoute, hne, hv, resp403]

/-- Witness for the amended C5: missing header on the status route gives
401; a present garbage token on the accounts route gives 403. -/
theorem claim_c5_amended_witness :
    (handleRoute hmacDemo envFull oracleHappy 0 Route.status none none).1.status = 401 ∧
    (strBytes "zzz" ≠ ([] : Str)) ∧
    validatePreviewToken hmacDemo envFull (strBytes "zzz") 0 = none ∧
    (handleRoute hmacDemo envFull oracleHappy 0 Route.accounts
      (some (strBytes "zzz")) none).1.status = 403 :=
  ⟨(claim_c5_amended hmacDemo envFull oracleHappy 0 Route.status none none).1
      (Or.inl rfl),
   by decide, by decide,
   (claim_c5_amended hmacDemo envFull oracleHappy 0 Route.accounts
      (some (strBytes "zzz")) none).2 (strBytes "zzz") rfl (by decide) (by decide)⟩

/-- Claim C6: on the transactions and accounts routes, a tenant with a
valid token but no stored Plaid credential gets the structured
`success: false, needsConnection: true` result with status 400, and no
outbound provider call is made. -/
theorem claim_c6_needs_connection (hmac : Str → Str → Str) (env : Env)
    (o : Oracle) (now : Nat) (tok tenantId : Str)
    (hv : validatePreviewToken hmac env tok now = some tenantId)
    (hne : tenantId ≠ []) (htok : tok ≠ [])
    (hstub : o.getAgentStub = Except.ok ())
    (hcred : o.getPlaidAccessToken = Except.ok none) :
    transactionsRoute hmac env o now (some tok) =
      (⟨400, some false, true, some (strBytes "No Plaid account connected"), none⟩, []) ∧
    accountsRoute hmac env o now (some tok) =
      (⟨400, some false, true, some (strBytes "No Plaid account connected"), none⟩, []) ∧
    (∀ e, Event.plaidFetch e ∉ (transactionsRoute hmac env o now (some tok)).2) ∧
    (∀ e, Event.plaidFetch e ∉ (accountsRoute hmac env o now (some tok)).2) := by
  have h1 : transactionsRoute hmac env o now (some tok) =
      (⟨400, some false, true, some (strBytes "No Plaid account connected"), none⟩, []) := by
    simp [transactionsRoute, htok, hv, hne, hstub, hcred]
  have h2 : accountsRoute hmac env o now (some tok) =
      (⟨400, some false, true, some (strBytes "No Plaid account connected"), none⟩, []) := by
    simp [accountsRoute, htok, hv, hne, hstub, hcred]
  refine ⟨h1, h2, ?_, ?_⟩
  · intro e
    simp [h1]
  · intro e
    simp [h2]

/-- Witness for C6 with a concrete valid token and a credential-less
oracle. -/
theorem claim_c6_needs_connection_witness :
    validatePreviewToken hmacDemo envFull tokDemo 0 = some agentIdDemo ∧
    (transactionsRoute hmacDemo envFull oracleNoCred 0 (some tokDemo) =
      (⟨400, some false, true, some (strBytes "No Plaid account connected"), none⟩, []) ∧
    accountsRoute hmacDemo envFull oracleNoCred 0 (some tokDemo) =
      (⟨400, some false, true, some (strBytes "No Plaid account connected"), none⟩, []) ∧
    (∀ e, Event.plaidFetch e ∉
      (transactionsRoute hmacDemo envFull oracleNoCred 0 (some tokDemo)).2) ∧
    (∀ e, Event.plaidFetch e ∉
      (accountsRoute hmacDemo envFull oracleNoCred 0 (some tokDemo)).2)) :=
  ⟨by decide,
   claim_c6_needs_connection hmacDemo envFull oracleNoCred 0 tokDemo agentIdDemo
     (by decide) (by decide) (by decide) rfl rfl⟩

/-- Claim C7: whenever the exchange-token route produces a response with
`success: true`, the agent store of the fresh access token was performed
(and succeeded) before the response. -/
theorem claim_c7_store_before_success (hmac : Str → Str → Str) (env : Env)
    (o : Oracle) (now : Nat) (header : Option Str)
    (body : Option (Option Str)) :
    (exchangeTokenRoute hmac env o now header body).1.success = some true →
      Event.storeToken ∈ (exchangeTokenRoute hmac env o now header body).2 ∧
      o.storePlaidAccessToken = Except.ok () := by
  intro h
  rcases header with _ | tok
  · simp [exchangeTokenRoute, resp401] at h
  · by_cases he : tok = []
    · simp [exchangeTokenRoute, he, resp401] at h
    · cases hv : validatePreviewToken hmac env tok now with
      | none => simp [exchangeTokenRoute, he, hv, resp403] at h
      | some aid =>
        by_cases ha : aid = []
        · simp [exchangeTokenRoute, he, hv, ha, resp403] at h
        · rcases body with _ | pt
          · simp [exchangeTokenRoute, he, hv, ha] at h
          · rcases pt with _ | p
            · simp [exchangeTokenRoute, he, hv, ha] at h
            · by_cases hp : p = []
              · simp [exchangeTokenRoute, he, hv, ha, hp] at h
              · rcases hpr : plaidRequestM env o epExchange with ⟨r, evs⟩
                cases r with
                | error m =>
                  simp [exchangeTokenRoute, he, hv, ha, hp, hpr, resp500] at h
                | ok u =>
                  cases hstub : o.getAgentStub with
                  | error m =>
                    simp [exchangeTokenRoute, he, hv, ha, hp, hpr, hstub,
                      resp500] at h
                  | ok u2 =>
                    cases hstore : o.storePlaidAccessToken with
                    | error m =>
                      simp [exchangeTokenRoute, he, hv, ha, hp, hpr, hstub,
                        hstore, resp500] at h
                    | ok u3 =>
                      constructor
                      · simp [exchangeTokenRoute, he, hv, ha, hp, hpr, hstub,
                          hstore]
                      · cases u3
                        rfl

/-- Witness for C7: a fully successful exchange run reaches
`success: true` having performed the store. -/
theorem claim_c7_store_before_success_witness :
    (exchangeTokenRoute hmacDemo envFull oracleHappy 0 (some tokDemo)
      (some (some (strBytes "pub")))).1.success = some true ∧
    (Event.storeToken ∈ (exchangeTokenRoute hmacDemo envFull oracleHappy 0
      (some tokDemo) (some (some (strBytes "pub")))).2 ∧
     oracleHappy.storePlaidAccessToken = Except.ok ()) :=
  ⟨by decide,
   claim_c7_store_before_success hmacDemo envFull oracleHappy 0 (some tokDemo)
     (some (some (strBytes "pub"))) (by decide)⟩

/-- Claim C8 counterexample: Plaid answers the transactions call with its
own 400 (invalid access token), yet the route surfaces status 500, not a
400-class reconnect signal: `plaidRequest` throws on every non-ok
provider response and the catch block always answers 500. -/
theorem claim_c8_counterexample :
    oracle400.fetchPlaid epTransactionsSync =
      FetchOutcome.httpError 400 (some (strBytes "the access token is invalid")) ∧
    (transactionsRoute hmacDemo envFull oracle400 0 (some tokDemo)).1.status = 500 ∧
    (transactionsRoute hmacDemo envFull oracle400 0 (some tokDemo)).1.needsConnection
      = false := by
  refine ⟨rfl, by decide, by decide⟩

/-- Claim C8 amended: when a tenant has a stored non-empty credential and
the provider declares an error of any status, in particular a 4xx for a
bad or expired credential, the proxy surfaces it to the caller as a 500
response with `success: false` carrying the provider message; no
400-class reconnect signal is produced on this path. -/
theorem claim_c8_amended (hmac : Str → Str → Str) (env : Env) (o : Oracle)
    (now : Nat) (tok tenantId cred : Str) (st : Nat) (msg : Option Str)
    (hv : validatePreviewToken hmac env tok now = some tenantId)
    (hne : tenantId ≠ []) (htok : tok ≠ [])
    (hstub : o.getAgentStub = Except.ok ())
    (hcred : o.getPlaidAccessToken = Except.ok (some cred))
    (hcne : cred ≠ [])
    (hfetch : o.fetchPlaid epTransactionsSync = FetchOutcome.httpError st msg)
    (hcid : env.PLAID_CLIENT_ID ≠ []) (hsec : env.PLAID_SECRET ≠ []) :
    (transactionsRoute hmac env o now (some tok)).1.status = 500 ∧
    (transactionsRoute hmac env o now (some tok)).1.success = some false := by
  have hpr : ∃ m, plaidRequestM env o epTransactionsSync =
      (Except.error m, [Event.plaidFetch epTransactionsSync]) := by
    rw [plaidRequestM, if_neg (not_or.mpr ⟨hcid, hsec⟩), hfetch]
    exact ⟨_, rfl⟩
  obtain ⟨m, hpr⟩ := hpr
  simp [transactionsRoute, htok, hv, hne, hstub, hcred, hcne, hpr, resp500]

/-- Witness for the amended C8 at the concrete 400-answering oracle. -/
theorem claim_c8_amended_witness :
    validatePreviewToken hmacDemo envFull tokDemo 0 = some agentIdDemo ∧
    ((transactionsRoute hmacDemo envFull oracle400 0 (some tokDemo)).1.status = 500 ∧
     (transactionsRoute hmacDemo envFull oracle400 0 (some tokDemo)).1.success =
       some false) :=
  ⟨by decide,
   claim_c8_amended hmacDemo envFull oracle400 0 tokDemo agentIdDemo
     (strBytes "access-sandbox-1") 400
     (some (strBytes "the access token is invalid"))
     (by decide) (by decide) (by decide) rfl rfl (by decide) rfl
     (by decide) (by decide)⟩

/-- Claim C9 counterexample: with a PendingConfiguration for card
config-5 active and the plaid requirement still unconfigured, a second
gate request at time 7 is not a no-op: it emits a configuration event
whose card id is the fresh config-7, not the existing config-5, and it
overwrites the stored pending configuration. -/
theorem claim_c9_counterexample :
    (executeConfigurationPhase [strBytes "plaid"] (fun _ => false) 7
      ⟨some ⟨[strBytes "plaid"], [], strBytes "config-5"⟩⟩).2.2 ≠ [] ∧
    (∀ e ∈ (executeConfigurationPhase [strBytes "plaid"] (fun _ => false) 7
      ⟨some ⟨[strBytes "plaid"], [], strBytes "config-5"⟩⟩).2.2,
      e.cardId ≠ strBytes "config-5") ∧
    (executeConfigurationPhase [strBytes "plaid"] (fun _ => false) 7
      ⟨some ⟨[strBytes "plaid"], [], strBytes "config-5"⟩⟩).2.1.pendingConfiguration ≠
      some ⟨[strBytes "plaid"], [], strBytes "config-5"⟩ := by
  decide

/-- Claim C9 amended: while a PendingConfiguration is active, a repeat
gate request with still-unconfigured services is not a no-op: regardless
of the stored state it emits exactly one new configuration event with a
freshly minted card id and replaces the pending configuration with one
holding the new card id (so at most one is held, only because the new
one overwrites the old). -/
theorem claim_c9_amended (detected : List Str) (hasSecret : Str → Bool)
    (now : Nat) (st : PhasicState)
    (h : detected.filter (fun s => ! hasSecret s) ≠ []) :
    executeConfigurationPhase detected hasSecret now st =
      (CurrentDevState.IDLE,
       ⟨some ⟨detected.filter (fun s => ! hasSecret s), [],
          strBytes "config-" ++ toDecimal now⟩⟩,
       [⟨strBytes "config-" ++ toDecimal now,
         detected.filter (fun s => ! hasSecret s)⟩]) := by
  simp [executeConfigurationPhase, h]

/-- Witness for the amended C9: one unconfigured service, a stale pending
card, and a gate request at time 7. -/
theorem claim_c9_amended_witness :
    ([strBytes "plaid"].filter (fun s => ! (fun _ => false) s) ≠ []) ∧
    executeConfigurationPhase [strBytes "plaid"] (fun _ => false) 7
      ⟨some ⟨[strBytes "plaid"], [], strBytes "config-5"⟩⟩ =
      (CurrentDevState.IDLE,
       ⟨some ⟨[strBytes "plaid"].filter (fun s => ! (fun _ => false) s), [],
          strBytes "config-" ++ toDecimal 7⟩⟩,
       [⟨strBytes "config-" ++ toDecimal 7,
         [strBytes "plaid"].filter (fun s => ! (fun _ => false) s)⟩]) :=
  ⟨by decide,
   claim_c9_amended [strBytes "plaid"] (fun _ => false) 7
     ⟨some ⟨[strBytes "plaid"], [], strBytes "config-5"⟩⟩ (by decide)⟩

/-- Claim C10: the link-token route needs only a valid preview token: its
behaviour does not depend on the tenant's stored access token, it never
sets `needsConnection`, missing platform Plaid credentials give a
`success: false` 500 (not 400) with no outbound call, and with platform
credentials present the provider is called. -/
theorem claim_c10_link_token (hmac : Str → Str → Str) (env : Env)
    (o : Oracle) (now : Nat) (tok tenantId : Str)
    (hv : validatePreviewToken hmac env tok now = some tenantId)
    (hne : tenantId ≠ []) (htok : tok ≠ []) :
    (∀ x, linkTokenRoute hmac env { o with getPlaidAccessToken := x } now (some tok) =
      linkTokenRoute hmac env o now (some tok)) ∧
    (linkTokenRoute hmac env o now (some tok)).1.needsConnection = false ∧
    ((env.PLAID_CLIENT_ID = [] ∨ env.PLAID_SECRET = []) →
      (linkTokenRoute hmac env o now (some tok)).1.status = 500 ∧
      (linkTokenRoute hmac env o now (some tok)).1.success = some false ∧
      (linkTokenRoute hmac env o now (some tok)).2 = []) ∧
    (env.PLAID_CLIENT_ID ≠ [] → env.PLAID_SECRET ≠ [] →
      Event.plaidFetch epLinkTokenCreate ∈
        (linkTokenRoute hmac env o now (some tok)).2) := by
  refine ⟨fun x => rfl, ?_, ?_, ?_⟩
  · rcases hpr : plaidRequestM env o epLinkTokenCreate with ⟨r, evs⟩
    cases r <;> simp [linkTokenRoute, htok, hv, hne, hpr, resp500]
  · intro hmiss
    have hpr : plaidRequestM env o epLinkTokenCreate =
        (Except.error (strBytes "Plaid credentials not configured"), []) := by
      rw [plaidRequestM, if_pos hmiss]
    simp [linkTokenRoute, htok, hv, hne, hpr, resp500]
  · intro h1 h2
    rcases hf : o.fetchPlaid epLinkTokenCreate with _ | ⟨st, msg⟩
    · have hpr : plaidRequestM env o epLinkTokenCreate =
          (Except.ok (), [Event.plaidFetch epLinkTokenCreate]) := by
        rw [plaidRequestM, if_neg (not_or.mpr ⟨h1, h2⟩), hf]
      simp [linkTokenRoute, htok, hv, hne, hpr]
    · have hpr : ∃ m, plaidRequestM env o epLinkTokenCreate =
          (Except.error m, [Event.plaidFetch epLinkTokenCreate]) := by
        rw [plaidRequestM, if_neg (not_or.mpr ⟨h1, h2⟩), hf]
        exact ⟨_, rfl⟩
      obtain ⟨m, hpr⟩ := hpr
      simp [linkTokenRoute, htok, hv, hne, hpr, resp500]

/-- Witness for C10 at a concrete valid token and fully configured
environment. -/
theorem claim_c10_link_token_witness :
    validatePreviewToken hmacDemo envFull tokDemo 0 = some agentIdDemo ∧
    ((∀ x, linkTokenRoute hmacDemo envFull
        { oracleHappy with getPlaidAccessToken := x } 0 (some tokDemo) =
      linkTokenRoute hmacDemo envFull oracleHappy 0 (some tokDemo)) ∧
    (linkTokenRoute hmacDemo envFull oracleHappy 0 (some tokDemo)).1.needsConnection
      = false ∧
    ((envFull.PLAID_CLIENT_ID = [] ∨ envFull.PLAID_SECRET = []) →
      (linkTokenRoute hmacDemo envFull oracleHappy 0 (some tokDemo)).1.status = 500 ∧
      (linkTokenRoute hmacDemo envFull oracleHappy 0 (some tokDemo)).1.success =
        some false ∧
      (linkTokenRoute hmacDemo envFull oracleHappy 0 (some tokDemo)).2 = []) ∧
    (envFull.PLAID_CLIENT_ID ≠ [] → envFull.PLAID_SECRET ≠ [] →
      Event.plaidFetch epLinkTokenCreate ∈
        (linkTokenRoute hmacDemo envFull oracleHappy 0 (some tokDemo)).2)) :=
  ⟨by decide,
   claim_c10_link_token hmacDemo envFull oracleHappy 0 tokDemo agentIdDemo
     (by decide) (by decide) (by decide)⟩

end Vibe

